import Mathlib

/-!
# Verification of the AirSage Pro dashboard core (src/app/app.py)

Shallow embedding of the threshold-classification, gauge-rendering and
feature-assembly logic of the Streamlit app `app.py`, together with proofs
of the specified properties. Numeric values are modelled as rationals;
Python dicts and pandas single-row DataFrames are modelled as association
lists from column name to value.
-/

namespace AirSage

/-- The hard-coded default feature list `DEFAULT_FEATURES` (app.py lines 16-19). -/
def DEFAULT_FEATURES : List String :=
  ["PT08.S1(CO)", "NMHC(GT)", "NOx(GT)", "NO2(GT)",
   "PT08.S3(NOx)", "T", "RH", "AH", "Hour", "Month", "DayOfWeek"]

/-- Severity levels of the three branches of the Run Analysis block
(app.py lines 134-140): error / warning / success messages. -/
inductive Severity where
  | Safe
  | Moderate
  | Hazardous
deriving DecidableEq

/-- Numeric rank of a severity level, for stating monotonicity:
Safe < Moderate < Hazardous. -/
def Severity.level : Severity → Nat
  | .Safe => 0
  | .Moderate => 1
  | .Hazardous => 2

/-- The severity branch of the Run Analysis block (app.py lines 134-140):
`if prediction > alert_threshold: ... elif prediction > 4.4: ... else: ...`. -/
def classify (prediction alert_threshold : ℚ) : Severity :=
  if prediction > alert_threshold then .Hazardous
  else if prediction > 4.4 then .Moderate
  else .Safe

/-- The user-facing message attached to each severity branch
(app.py lines 135, 138, 140). -/
def severityMessage : Severity → String
  | .Hazardous => "🚨 Critical Alert: Evacuation recommended!"
  | .Moderate => "⚠️ Caution: Sensitive groups should reduce exposure"
  | .Safe => "✅ Air Quality Normal"

/-- One entry of the gauge's `steps` list (app.py lines 45-48): a colored
band from `lo` to `hi`. -/
structure GaugeStep where
  lo : ℚ
  hi : ℚ
  color : String
deriving DecidableEq

/-- The declarative content of the plotly figure built by `create_gauge`
(app.py lines 37-57): needle value, axis range, bar color, colored bands,
and the threshold marker line. -/
structure GaugeSpec where
  value : ℚ
  axisLo : ℚ
  axisHi : ℚ
  barColor : String
  steps : List GaugeStep
  thresholdLineColor : String
  thresholdLineWidth : ℚ
  thresholdThickness : ℚ
  thresholdValue : ℚ
deriving DecidableEq

/-- `create_gauge(value, min_val, max_val, threshold)` (app.py lines 37-57);
the Python defaults are `min_val=0`, `max_val=15`, `threshold=9.4`, and the
app calls it with those defaults and `threshold=alert_threshold`. -/
def create_gauge (value min_val max_val threshold : ℚ) : GaugeSpec :=
  { value := value
    axisLo := min_val
    axisHi := max_val
    barColor := "darkblue"
    steps := [⟨min_val, 4.4, "lightgreen"⟩,
              ⟨4.4, threshold, "orange"⟩,
              ⟨threshold, max_val, "red"⟩]
    thresholdLineColor := "black"
    thresholdLineWidth := 4
    thresholdThickness := 0.75
    thresholdValue := threshold }

/-- The pandas column selection `pd.DataFrame(input_data)[features]`
(app.py line 119): selecting a list of column labels returns exactly those
columns, in the requested order, and raises a KeyError naming the missing
labels when any requested label is absent. Single-row frames are modelled
as association lists; the error value carries the missing names. -/
def selectColumns (raw : List (String × ℚ)) (expected : List String) :
    Except (List String) (List (String × ℚ)) :=
  let missing := expected.filter fun n => (raw.lookup n).isNone
  if missing = [] then
    .ok (expected.filterMap fun n => (raw.lookup n).map fun v => (n, v))
  else
    .error missing

/-- The `input_data` dict built from the widget values
(app.py lines 104-116): one numeric value per canonical field name. -/
def input_data (pt08_s1_co nmhc_gt nox_gt no2_gt pt08_s3_nox temperature
    humidity abs_humidity hour month day_of_week : ℚ) : List (String × ℚ) :=
  [("PT08.S1(CO)", pt08_s1_co), ("NMHC(GT)", nmhc_gt), ("NOx(GT)", nox_gt),
   ("NO2(GT)", no2_gt), ("PT08.S3(NOx)", pt08_s3_nox), ("T", temperature),
   ("RH", humidity), ("AH", abs_humidity), ("Hour", hour), ("Month", month),
   ("DayOfWeek", day_of_week)]

/-- A loaded model object: it may or may not expose `feature_names_in_`
(probed with `getattr` on app.py line 34), and its `predict` call may
raise, modelled as `Except` with the exception message. -/
structure Model where
  feature_names_in : Option (List String)
  predict : List (String × ℚ) → Except String ℚ

/-- App.py line 34: `features = getattr(model, 'feature_names_in_',
DEFAULT_FEATURES) if model else DEFAULT_FEATURES`. -/
def features (model : Option Model) : List String :=
  match model with
  | some m => m.feature_names_in.getD DEFAULT_FEATURES
  | none => DEFAULT_FEATURES

/-- Numeric content of the metric label on app.py line 143: the format
string rounds `prediction` to two decimal places before display, so the
displayed number is the nearest hundredth. -/
def metricValue (prediction : ℚ) : ℚ :=
  (round (prediction * 100) : ℚ) / 100

/-- The observable outcome of one click of the Run Analysis button
(app.py lines 100-151). `unhandled` is the pandas KeyError escaping the
column selection on line 119, which sits outside the try block that
starts on line 121, so no except clause of the app receives it. -/
inductive Outcome where
  | modelNotLoaded (msg : String)
  | unhandled (missing : List String)
  | success (gauge : GaugeSpec) (sev : Severity) (msg : String) (metric : ℚ)
  | predictionFailed (msg : String) (cols : List String) (vals : List ℚ)
      (modelFeatures : List String)
deriving DecidableEq

/-- Whether the outcome is a message the app itself displays (st.error,
st.warning, st.success, st.metric), as opposed to an exception escaping
the Run Analysis block unhandled. -/
def Outcome.isHandled : Outcome → Bool
  | .unhandled _ => false
  | _ => true

/-- The try block of the Run Analysis handler (app.py lines 121-151): the
predict call, then the gauge, the severity branch and the metric (lines
122-144); the except branch shows the error message plus the input
columns, values and model features (lines 146-151). -/
def tryPredict (m : Model) (input_df : List (String × ℚ))
    (feats : List String) (alert_threshold : ℚ) : Outcome :=
  match m.predict input_df with
  | .ok prediction =>
      .success (create_gauge prediction 0 15 alert_threshold)
        (classify prediction alert_threshold)
        (severityMessage (classify prediction alert_threshold))
        (metricValue prediction)
  | .error e =>
      .predictionFailed ("Prediction failed: " ++ e)
        (input_df.map Prod.fst) (input_df.map Prod.snd) feats

/-- The Run Analysis click handler (app.py lines 100-151): guard on a
missing model (lines 101-102), column selection (line 119, outside the
try block), then the try block itself. -/
def run_analysis (model : Option Model) (feats : List String)
    (raw : List (String × ℚ)) (alert_threshold : ℚ) : Outcome :=
  match model with
  | none => .modelNotLoaded "Model not loaded - cannot make predictions"
  | some m =>
    match selectColumns raw feats with
    | .error missing => .unhandled missing
    | .ok input_df => tryPredict m input_df feats alert_threshold

/-- The `st.cache_resource` cache of `load_model` within one session:
`loadResult = none` before the first call, `some r` afterwards, where
`r = none` records a load failure; `loadCalls` counts actual loads. -/
structure Session where
  loadResult : Option (Option Model)
  loadCalls : Nat

/-- `load_model` (app.py lines 22-31) under `@st.cache_resource`:
`loadFromDisk` is the joblib.load of the artifact, returning `none` when
loading raises (the except branch shows an error and returns None); the
result, successful or not, is cached and reused on every later call. -/
def load_model (loadFromDisk : Unit → Option Model) (s : Session) :
    Option Model × Session :=
  match s.loadResult with
  | some r => (r, s)
  | none =>
      let r := loadFromDisk ()
      (r, { loadResult := some r, loadCalls := s.loadCalls + 1 })

/-- One script rerun followed by a Run Analysis click: `model =
load_model()` (line 31), `features = ...` (line 34), then the click
handler. -/
def rerun (loadFromDisk : Unit → Option Model) (s : Session)
    (raw : List (String × ℚ)) (alert_threshold : ℚ) : Outcome × Session :=
  let p := load_model loadFromDisk s
  (run_analysis p.1 (features p.1) raw alert_threshold, p.2)

end AirSage

namespace AirSage

/-- Claim C1: for every threshold t in [4.4, 15.0] and every prediction p,
`classify p t` is Hazardous iff p > t, Moderate iff 4.4 < p <= t, and Safe
iff p <= 4.4; when t = 4.4 the Moderate band is empty and classification
still succeeds (it is a total function, so it always returns a level). -/
theorem classify_bands (t p : ℚ) (h1 : (4.4 : ℚ) ≤ t) (h2 : t ≤ 15) :
    (classify p t = .Hazardous ↔ t < p) ∧
    (classify p t = .Moderate ↔ (4.4 : ℚ) < p ∧ p ≤ t) ∧
    (classify p t = .Safe ↔ p ≤ (4.4 : ℚ)) ∧
    (t = 4.4 → classify p t ≠ .Moderate) := by
  unfold classify
  split_ifs with hA hB
  · refine ⟨iff_of_true rfl hA, iff_of_false (by simp) ?_, iff_of_false (by simp) ?_,
      fun _ hc => absurd hc (by simp)⟩
    · rintro ⟨-, hpt⟩
      exact absurd hA (not_lt.mpr hpt)
    · intro hp
      exact absurd hA (not_lt.mpr (le_trans hp h1))
  · push_neg at hA
    refine ⟨iff_of_false (by simp) (not_lt.mpr hA), iff_of_true rfl ⟨hB, hA⟩,
      iff_of_false (by simp) (not_le.mpr hB), ?_⟩
    intro ht _
    rw [ht] at hA
    exact absurd hA (not_le.mpr hB)
  · push_neg at hA hB
    refine ⟨iff_of_false (by simp) (not_lt.mpr hA), iff_of_false (by simp) ?_,
      iff_of_true rfl hB, fun _ hc => absurd hc (by simp)⟩
    rintro ⟨h44, -⟩
    exact absurd h44 (not_lt.mpr hB)

/-- Witness for C1 at t = 9.4, p = 5: the prediction lies in the Moderate
band. -/
theorem classify_bands_witness :
    (classify 5 9.4 = .Hazardous ↔ (9.4 : ℚ) < 5) ∧
    (classify 5 9.4 = .Moderate ↔ (4.4 : ℚ) < 5 ∧ (5 : ℚ) ≤ 9.4) ∧
    (classify 5 9.4 = .Safe ↔ (5 : ℚ) ≤ 4.4) ∧
    ((9.4 : ℚ) = 4.4 → classify 5 9.4 ≠ .Moderate) :=
  classify_bands 9.4 5 (by norm_num) (by norm_num)

/-- Claim C2: for fixed threshold t, `classify` is monotone in the
prediction: p1 ≤ p2 implies the severity level does not decrease. -/
theorem classify_monotone (t p1 p2 : ℚ) (h : p1 ≤ p2) :
    (classify p1 t).level ≤ (classify p2 t).level := by
  unfold classify
  split_ifs with a b c d <;> simp [Severity.level] <;> linarith

/-- Witness for C2 at p1 = 1, p2 = 5, t = 9.4. -/
theorem classify_monotone_witness :
    (classify 1 9.4).level ≤ (classify 5 9.4).level :=
  classify_monotone 9.4 1 5 (by norm_num)

/-- Claim C3: for every value v and threshold t, the gauge has exactly the
three bands [0, 4.4) lightgreen (the safe color), [4.4, t) orange (the
caution color), [t, 15] red (the danger color), the threshold marker line
at t and the needle at v; instantiated at value 12.0, threshold 9.4. -/
theorem create_gauge_spec (v t : ℚ) :
    (create_gauge v 0 15 t).steps =
      [⟨0, 4.4, "lightgreen"⟩, ⟨4.4, t, "orange"⟩, ⟨t, 15, "red"⟩] ∧
    (create_gauge v 0 15 t).thresholdValue = t ∧
    (create_gauge v 0 15 t).value = v ∧
    (create_gauge 12 0 15 9.4).steps =
      [⟨0, 4.4, "lightgreen"⟩, ⟨4.4, 9.4, "orange"⟩, ⟨9.4, 15, "red"⟩] ∧
    (create_gauge 12 0 15 9.4).value = 12 ∧
    (create_gauge 12 0 15 9.4).thresholdValue = 9.4 :=
  ⟨rfl, rfl, rfl, rfl, rfl, rfl⟩

/-- Selecting, in order, the looked-up entries of a list of names whose
lookups all succeed yields a record whose key list is exactly that list
of names. -/
theorem map_fst_filterMap_lookup (raw : List (String × ℚ)) :
    ∀ expected : List String,
      (∀ n ∈ expected, (raw.lookup n).isSome) →
      (expected.filterMap fun n =>
        (raw.lookup n).map fun v => (n, v)).map Prod.fst = expected := by
  intro expected
  induction expected with
  | nil => intro _; rfl
  | cons n ns ih =>
      intro h
      have hn := h n (List.mem_cons_self n ns)
      obtain ⟨v, hv⟩ := Option.isSome_iff_exists.mp hn
      rw [List.filterMap_cons]
      simp only [hv, Option.map_some, List.map_cons]  -- reduce the head
      exact congrArg (n :: ·) (ih fun a ha => h a (List.mem_cons_of_mem _ ha))

/-- Claim C5: when every expected name occurs among the raw inputs, column
selection succeeds and the resulting single-row record has exactly the
expected keys in the expected order; raw keys outside the expected list
are dropped and dropping them raises nothing. -/
theorem selectColumns_ok (raw : List (String × ℚ)) (expected : List String)
    (h : ∀ n ∈ expected, (raw.lookup n).isSome) :
    ∃ df : List (String × ℚ),
      selectColumns raw expected = .ok df ∧ df.map Prod.fst = expected := by
  refine ⟨expected.filterMap fun n => (raw.lookup n).map fun v => (n, v),
    ?_, map_fst_filterMap_lookup raw expected h⟩
  unfold selectColumns
  have hnil : expected.filter (fun n => (raw.lookup n).isNone) = [] := by
    rw [List.filter_eq_nil_iff]
    intro a ha
    simpa [Option.isNone_iff_eq_none] using h a ha
  simp [hnil]

/-- Witness for C5: raw inputs A, B, X and expected list [X, A]; the extra
key B is dropped and the record keys are exactly [X, A]. -/
theorem selectColumns_ok_witness :
    ∃ df : List (String × ℚ),
      selectColumns [("A", 1), ("B", 2), ("X", 3)] ["X", "A"] = .ok df ∧
      df.map Prod.fst = ["X", "A"] :=
  selectColumns_ok [("A", 1), ("B", 2), ("X", 3)] ["X", "A"] (by decide)

/-- Counterexample to C4: with a model predicting 3.14159, the metric
shown next to the gauge displays 3.14 (the .2f format), which is not the
unmodified prediction value. -/
theorem metric_not_exact :
    run_analysis (some ⟨none, fun _ => .ok (314159 / 100000)⟩)
        ["T"] [("T", 20)] 9.4 =
      .success (create_gauge (314159 / 100000) 0 15 9.4) .Safe
        (severityMessage .Safe) (157 / 50) ∧
    (157 / 50 : ℚ) ≠ 314159 / 100000 := by
  have h1 : classify (314159 / 100000 : ℚ) 9.4 = .Safe := by
    unfold classify
    rw [if_neg (by norm_num), if_neg (by norm_num)]
  have h2 : metricValue (314159 / 100000 : ℚ) = 157 / 50 := by
    unfold metricValue
    rw [round_eq]
    norm_num
  refine ⟨?_, by norm_num⟩
  have h3 : run_analysis (some ⟨none, fun _ => .ok (314159 / 100000)⟩)
      ["T"] [("T", 20)] 9.4 =
      .success (create_gauge (314159 / 100000) 0 15 9.4)
        (classify (314159 / 100000) 9.4)
        (severityMessage (classify (314159 / 100000) 9.4))
        (metricValue (314159 / 100000)) := rfl
  rw [h3, h1, h2]

/-- Claim C4 amended: the gauge needle is set to the exact prediction for
every value, including values outside [0, 15], without cropping or
rejection; the labeled metric alongside the gauge displays the prediction
rounded to two decimal places rather than the unmodified exact value. -/
theorem needle_exact_metric_rounded (m : Model) (feats : List String)
    (raw : List (String × ℚ)) (t : ℚ) (df : List (String × ℚ)) (p : ℚ)
    (hsel : selectColumns raw feats = .ok df) (hp : m.predict df = .ok p) :
    run_analysis (some m) feats raw t =
      .success (create_gauge p 0 15 t) (classify p t)
        (severityMessage (classify p t)) (metricValue p) ∧
    (create_gauge p 0 15 t).value = p := by
  have h1 : run_analysis (some m) feats raw t = tryPredict m df feats t := by
    unfold run_analysis
    rw [hsel]
  rw [h1]
  unfold tryPredict
  rw [hp]
  exact ⟨rfl, rfl⟩

/-- Witness for the amended C4, with prediction 20 lying outside the axis
range [0, 15]: the needle is still set to 20. -/
theorem needle_exact_metric_rounded_witness :
    run_analysis (some ⟨none, fun _ => .ok 20⟩) ["T"] [("T", 20)] 9.4 =
      .success (create_gauge 20 0 15 9.4) (classify 20 9.4)
        (severityMessage (classify 20 9.4)) (metricValue 20) ∧
    (create_gauge 20 0 15 9.4).value = 20 :=
  needle_exact_metric_rounded ⟨none, fun _ => .ok 20⟩ ["T"] [("T", 20)] 9.4
    [("T", 20)] 20 rfl rfl

/-- Counterexample to C6: with expected feature list [X] and raw inputs
lacking X, the Run Analysis click ends in the unhandled KeyError outcome,
not in a displayable message: the selection on line 119 sits outside the
try block, so the failure is not caught at the pipeline boundary. -/
theorem missing_feature_not_caught :
    run_analysis (some ⟨some ["X"], fun _ => .ok 0⟩) ["X"] [("Y", 1)] 9.4 =
      .unhandled ["X"] ∧
    (run_analysis (some ⟨some ["X"], fun _ => .ok 0⟩) ["X"] [("Y", 1)]
      9.4).isHandled = false := by
  exact ⟨by decide, by decide⟩

/-- Claim C6 amended: when the expected list contains names absent from
the raw inputs, the selection fails with an error identifying exactly the
missing names, but the failure escapes the Run Analysis block as an
unhandled exception instead of being turned into a displayable message,
because the selection happens before the try block. -/
theorem missing_feature_unhandled (m : Model) (feats : List String)
    (raw : List (String × ℚ)) (t : ℚ)
    (h : feats.filter (fun n => (raw.lookup n).isNone) ≠ []) :
    run_analysis (some m) feats raw t =
      .unhandled (feats.filter fun n => (raw.lookup n).isNone) ∧
    (run_analysis (some m) feats raw t).isHandled = false := by
  have hsel : selectColumns raw feats =
      .error (feats.filter fun n => (raw.lookup n).isNone) := by
    unfold selectColumns
    simp only [if_neg h]
  unfold run_analysis
  rw [hsel]
  exact ⟨rfl, rfl⟩

/-- Witness for the amended C6. -/
theorem missing_feature_unhandled_witness :
    run_analysis (some ⟨some ["X"], fun _ => .ok 0⟩) ["X"] [("Y", 2)] 9.4 =
      .unhandled (["X"].filter fun n =>
        (([("Y", (2 : ℚ))]).lookup n).isNone) ∧
    (run_analysis (some ⟨some ["X"], fun _ => .ok 0⟩) ["X"] [("Y", 2)]
      9.4).isHandled = false :=
  missing_feature_unhandled ⟨some ["X"], fun _ => .ok 0⟩ ["X"] [("Y", 2)] 9.4
    (by decide)

/-- Claim C7: when the artifact load fails, the failure is cached for the
session (exactly one load call, cached result none); every later rerun
with a Run Analysis click fails fast with the model-unavailable message,
performs no further load attempt, and the outcome is a displayed message,
not an unhandled fault. -/
theorem load_failure_cached (loadFromDisk : Unit → Option Model)
    (hf : loadFromDisk () = none)
    (raw : List (String × ℚ)) (t : ℚ) :
    ((load_model loadFromDisk ⟨none, 0⟩).2.loadCalls = 1) ∧
    ((load_model loadFromDisk ⟨none, 0⟩).2.loadResult = some none) ∧
    rerun loadFromDisk (load_model loadFromDisk ⟨none, 0⟩).2 raw t =
      (.modelNotLoaded "Model not loaded - cannot make predictions",
       (load_model loadFromDisk ⟨none, 0⟩).2) ∧
    (rerun loadFromDisk (load_model loadFromDisk ⟨none, 0⟩).2
      raw t).1.isHandled = true := by
  refine ⟨?_, ?_, ?_, ?_⟩ <;>
    simp [load_model, rerun, run_analysis, features, Outcome.isHandled, hf]

/-- Witness for C7 with a load that always fails. -/
theorem load_failure_cached_witness :
    ((load_model (fun _ => none) ⟨none, 0⟩).2.loadCalls = 1) ∧
    ((load_model (fun _ => none) ⟨none, 0⟩).2.loadResult = some none) ∧
    rerun (fun _ => none) (load_model (fun _ => none) ⟨none, 0⟩).2
        [("T", 20)] 9.4 =
      (.modelNotLoaded "Model not loaded - cannot make predictions",
       (load_model (fun _ => none) ⟨none, 0⟩).2) ∧
    (rerun (fun _ => none) (load_model (fun _ => none) ⟨none, 0⟩).2
      [("T", 20)] 9.4).1.isHandled = true :=
  load_failure_cached (fun _ => none) rfl [("T", 20)] 9.4

/-- Claim C8: the feature list fixed at model-load time is the model's
feature-name sequence when the model exposes one, and otherwise (model
without the attribute, or no model at all) the hard-coded default
sequence of 11 canonical names; in the embedding `features` is a pure
function of the load result, so it never changes within a session. -/
theorem features_determination (mo : Option Model) :
    (∀ m names, mo = some m → m.feature_names_in = some names →
      features mo = names) ∧
    (∀ m, mo = some m → m.feature_names_in = none →
      features mo = DEFAULT_FEATURES) ∧
    (mo = none → features mo = DEFAULT_FEATURES) ∧
    DEFAULT_FEATURES.length = 11 := by
  refine ⟨?_, ?_, ?_, rfl⟩
  · rintro m names rfl hn
    simp [features, hn]
  · rintro m rfl hn
    simp [features, hn]
  · rintro rfl
    rfl

/-- Witness for C8: a model exposing feature names uses them; no model
falls back to the 11 default names. -/
theorem features_determination_witness :
    features (some ⟨some ["A"], fun _ => .ok 0⟩) = ["A"] ∧
    features none = DEFAULT_FEATURES ∧
    DEFAULT_FEATURES.length = 11 :=
  ⟨(features_determination (some ⟨some ["A"], fun _ => .ok 0⟩)).1
      ⟨some ["A"], fun _ => .ok 0⟩ ["A"] rfl rfl,
   (features_determination none).2.2.1 rfl,
   (features_determination none).2.2.2⟩

/-- Claim C9: when the model is loaded and its predict call fails for any
reason other than unavailability, the except branch catches it and shows
a displayable message carrying the attempted record's keys and values for
diagnostics, and the outcome is handled so the dashboard keeps running. -/
theorem predict_failure_displayed (m : Model) (feats : List String)
    (raw : List (String × ℚ)) (t : ℚ) (df : List (String × ℚ)) (e : String)
    (hsel : selectColumns raw feats = .ok df)
    (hp : m.predict df = .error e) :
    run_analysis (some m) feats raw t =
      .predictionFailed ("Prediction failed: " ++ e)
        (df.map Prod.fst) (df.map Prod.snd) feats ∧
    (run_analysis (some m) feats raw t).isHandled = true := by
  have h1 : run_analysis (some m) feats raw t = tryPredict m df feats t := by
    unfold run_analysis
    rw [hsel]
  rw [h1]
  unfold tryPredict
  rw [hp]
  exact ⟨rfl, rfl⟩

/-- Witness for C9 with a predict call that raises the message boom. -/
theorem predict_failure_displayed_witness :
    run_analysis (some ⟨none, fun _ => .error "boom"⟩) ["T"] [("T", 20)]
        9.4 =
      .predictionFailed ("Prediction failed: " ++ "boom")
        ([("T", (20 : ℚ))].map Prod.fst) ([("T", (20 : ℚ))].map Prod.snd)
        ["T"] ∧
    (run_analysis (some ⟨none, fun _ => .error "boom"⟩) ["T"] [("T", 20)]
      9.4).isHandled = true :=
  predict_failure_displayed ⟨none, fun _ => .error "boom"⟩ ["T"]
    [("T", 20)] 9.4 [("T", 20)] "boom" rfl rfl

/-- Claim C10 (implicit): with the default 11-name feature list, the raw
input dict contains every expected name for all numeric widget values, so
column selection always succeeds with exactly the default keys in order,
and the Run Analysis click can never produce the unhandled
missing-feature outcome. -/
theorem default_features_never_missing
    (a b c d e f g h i j k : ℚ) :
    selectColumns (input_data a b c d e f g h i j k) DEFAULT_FEATURES =
      .ok [("PT08.S1(CO)", a), ("NMHC(GT)", b), ("NOx(GT)", c),
           ("NO2(GT)", d), ("PT08.S3(NOx)", e), ("T", f), ("RH", g),
           ("AH", h), ("Hour", i), ("Month", j), ("DayOfWeek", k)] ∧
    ∀ (m : Model) (t : ℚ) (miss : List String),
      run_analysis (some m) DEFAULT_FEATURES
        (input_data a b c d e f g h i j k) t ≠ .unhandled miss := by
  have hsel : selectColumns (input_data a b c d e f g h i j k)
      DEFAULT_FEATURES =
      .ok [("PT08.S1(CO)", a), ("NMHC(GT)", b), ("NOx(GT)", c),
           ("NO2(GT)", d), ("PT08.S3(NOx)", e), ("T", f), ("RH", g),
           ("AH", h), ("Hour", i), ("Month", j), ("DayOfWeek", k)] := rfl
  refine ⟨hsel, ?_⟩
  intro m t miss hcontra
  simp only [run_analysis, tryPredict, hsel] at hcontra
  rcases hp : m.predict
      [("PT08.S1(CO)", a), ("NMHC(GT)", b), ("NOx(GT)", c),
       ("NO2(GT)", d), ("PT08.S3(NOx)", e), ("T", f), ("RH", g),
       ("AH", h), ("Hour", i), ("Month", j), ("DayOfWeek", k)] with p | err <;>
    simp [hp] at hcontra

end AirSage
